import Mathlib

/-!
Shallow embedding of the rubenv/mysqltest library (mysqltest.go).

External effects (filesystem calls, user lookup, spawned processes, the SQL
driver) are modelled by an oracle structure that fixes the outcome of each
call site, and by an event trace recording, in order, the externally visible
actions the code performs. Every definition is translated from the Go source;
the oracle fields correspond one to one to the fallible calls in the source.
-/

set_option maxHeartbeats 1000000
set_option maxRecDepth 10000

abbrev Err := String

/-- Tags identifying which source call site ran an external command through
CombinedOutput: the mysql --version probe, the data directory bootstrap, and
the mysqladmin shutdown in Stop. -/
inductive CmdTag where
  | version
  | bootstrap
  | shutdown
  deriving DecidableEq, Repr

/-- Externally visible actions of Start and Stop, in program order. -/
inductive Event where
  | tempDirCreated (dir : String)
  | mkdir (p : String)
  | chmod (p : String)
  | chown (p : String)
  | wroteConfig (p : String) (content : String)
  | exec (tag : CmdTag) (command : String) (args : List String)
      (prepared : String × List String)
  | pipeOpen (which : String)
  | pipeClose (which : String)
  | procStart (command : String) (args : List String)
      (prepared : String × List String)
  | sleep (ms : Nat)
  | signalInterrupt
  | procWait
  | panicNilProcess
  | removeAll (p : String)
  deriving DecidableEq, Repr

/-- The MySQL struct of the source: storage root, whether the DB connection
field was set, the resolved execution identity, the binaries directory and
the socket path. The process and pipe handles are tracked by the trace. -/
structure MySQL where
  dir : String
  hasDB : Bool
  isRoot : Bool
  binPath : String
  sockFile : String
  deriving DecidableEq, Repr

/-- Oracle for every fallible external call made by Start, one field per call
site, in source order. -/
structure Env where
  /-- user.Current: the username of the caller. -/
  currentUser : Except Err String
  /-- user.Lookup of the mysql account: its Uid and Gid strings. -/
  lookupMysql : Except Err (String × String)
  /-- strconv.ParseInt of the Uid string. -/
  parseUid : Except Err Int
  /-- strconv.ParseInt of the Gid string. -/
  parseGid : Except Err Int
  /-- ioutil.TempDir: the fresh storage root. -/
  tempDir : Except Err String
  /-- os.MkdirAll of the data subdirectory. -/
  mkdirData : Option Err
  /-- os.MkdirAll of the sock subdirectory. -/
  mkdirSock : Option Err
  /-- os.Chmod of the root (root identity only). -/
  chmodDir : Option Err
  /-- os.Chown of the data subdirectory (root identity only). -/
  chownData : Option Err
  /-- os.Chown of the sock subdirectory (root identity only). -/
  chownSock : Option Err
  /-- ioutil.WriteFile of my.cnf. The source assigns this error to err and
  then overwrites err with the findBinPath result without checking it. -/
  writeConfig : Option Err
  /-- exec.LookPath of mysqld_safe inside findBinPath. -/
  lookPath : Except Err String
  /-- error of the mysql --version CombinedOutput call. -/
  versionErr : Option Err
  /-- combined output of the mysql --version call. -/
  versionOut : String
  /-- error of the bootstrap CombinedOutput call. -/
  bootstrapErr : Option Err
  /-- combined output of the bootstrap call. -/
  bootstrapOut : String
  /-- cmd.StderrPipe result. -/
  stderrPipeErr : Option Err
  /-- cmd.StdoutPipe result. -/
  stdoutPipeErr : Option Err
  /-- cmd.Start result for the server process. -/
  startErr : Option Err
  /-- outcome of the k-th connection attempt inside the retry closure
  (sql.Open followed by db.Ping); none means the attempt succeeded. -/
  ping : Nat → Option Err
  /-- bytes read from the stdout pipe by abort. -/
  capturedOut : String
  /-- bytes read from the stderr pipe by abort. -/
  capturedErr : String

/-- Model of Go path.Join for the two component calls used by the source. -/
def joinPath (a b : String) : String := a ++ "/" ++ b

/-- path.Dir: drop the last path element. -/
def dirPart (p : String) : String :=
  String.intercalate "/" (p.splitOn "/").dropLast

/-- findBinPath of the source: LookPath for mysqld_safe, returning its
directory, with the fixed not-installed message on failure. -/
def findBinPath (lookPath : Except Err String) : Except Err String :=
  match lookPath with
  | .ok p => .ok (dirPart p)
  | .error _ => .error "Did not find MySQL / MariaDB executables installed"

/-- makeDSN of the source. -/
def makeDSN (sockFile dbname : String) : String :=
  "root@unix(" ++ sockFile ++ ")/" ++ dbname

/-- The two-character token of two single quotes (written with escapes), the
literal Go substitutes for an empty argument in prepareCommand. -/
def emptyQuoted : String := "\x27\x27"

/-- The per-argument rewrite prepareCommand applies before joining when the
command is re-targeted through su. -/
def quoteEmpty (a : String) : String := if a = "" then emptyQuoted else a

/-- prepareCommand of the source. Not root: direct invocation, arguments
untouched. Root: su - mysql -c with the command line joined by spaces after
replacing every empty argument by the empty-quoted token. -/
def prepareCommand (isRoot : Bool) (command : String) (args : List String) :
    String × List String :=
  if !isRoot then
    (command, args)
  else
    ("su", ["-", "mysql", "-c",
      String.intercalate " " (command :: args.map quoteEmpty)])

/-- List-of-characters test: cs starts with pat. -/
def startsWithChars : List Char → List Char → Bool
  | _, [] => true
  | [], _ :: _ => false
  | a :: as, b :: bs => a == b && startsWithChars as bs

/-- List-of-characters test: pat occurs somewhere inside cs. -/
def hasSubChars : List Char → List Char → Bool
  | [], pat => startsWithChars [] pat
  | a :: rest, pat => startsWithChars (a :: rest) pat || hasSubChars rest pat

/-- Model of Go strings.Contains, used for the MariaDB marker test. -/
def strContains (s pat : String) : Bool := hasSubChars s.data pat.data

/-- Substring containment as a proposition, for statements about error
messages embedding captured command output. -/
def containsStr (s sub : String) : Prop := ∃ pre post, s = pre ++ sub ++ post

/-- Outcome of the retry loop: final result, number of calls of the attempt
closure, and the trace of sleeps performed between consecutive attempts. -/
structure RetryOut where
  result : Option Err
  calls : Nat
  events : List Event
  deriving Repr

/-- The retry loop of the source, with the remaining loop budget made
explicit: fuel counts how many further attempts are allowed after the current
one (Go decrements attempts after each failed call and returns the last error
once it reaches zero or below; otherwise it sleeps and loops). idx numbers
the current attempt. -/
def retryFuel (fn : Nat → Option Err) (d : Nat) : Nat → Nat → RetryOut
  | 0, idx => ⟨fn idx, idx + 1, []⟩
  | f + 1, idx =>
    match fn idx with
    | none => ⟨none, idx + 1, []⟩
    | some _ =>
      ⟨(retryFuel fn d f (idx + 1)).result,
       (retryFuel fn d f (idx + 1)).calls,
       Event.sleep d :: (retryFuel fn d f (idx + 1)).events⟩

/-- retry of the source, with the attempts counter taken as an unbounded
integer: fn runs once, then up to (attempts - 1) further times, sleeping the
fixed interval between consecutive attempts. This agrees with the Go machine
int for every attempts value above math.MinInt64, the only value at which
the decrement attempts -= 1 can wrap; retry64 below models that wrap. -/
def retry (fn : Nat → Option Err) (attempts : Int) (intervalMs : Nat) :
    RetryOut :=
  retryFuel fn intervalMs (attempts - 1).toNat 0

/-- Two's-complement reduction of an integer to the signed 64-bit range,
written with explicit modular arithmetic (Go int is 64 bits wide on the
platforms this library targets). -/
def toInt64 (a : Int) : Int :=
  (a + 9223372036854775808) % 18446744073709551616 - 9223372036854775808

/-- The wrapping decrement that attempts -= 1 performs on a Go int: at
math.MinInt64 it wraps around to math.MaxInt64. -/
def wrapDec64 (a : Int) : Int := toInt64 (a - 1)

/-- retry of the source with the attempts counter given Go 64-bit machine
int semantics. The first decrement fixes the number of further attempts the
loop allows: it is the only decrement that can wrap, because every later one
acts on a positive value, so the loop budget after the first call is exactly
wrapDec64 attempts when positive. At math.MinInt64 that budget wraps to
math.MaxInt64 instead of ending the loop. -/
def retry64 (fn : Nat → Option Err) (attempts : Int) (intervalMs : Nat) :
    RetryOut :=
  retryFuel fn intervalMs (wrapDec64 attempts).toNat 0

/-- Attempt count Start passes to retry (source line 198). -/
def startRetryAttempts : Int := 1000

/-- Interval in milliseconds Start passes to retry (source line 198). -/
def startRetryIntervalMs : Nat := 10

/-- The uid and gid resolution block Start runs when the caller is root:
user.Lookup of mysql with the fixed error prefix, then the two ParseInt
calls. -/
def resolveMysqlIds (env : Env) : Except Err (Int × Int) :=
  match env.lookupMysql with
  | .error e =>
    .error
      ("Could not find mysql user, which is required when running as root: "
        ++ e)
  | .ok _ =>
    match env.parseUid with
    | .error e => .error e
    | .ok uid =>
      match env.parseGid with
      | .error e => .error e
      | .ok gid => .ok (uid, gid)

/-- The error message abort formats from its message, the underlying error
and the two captured streams. -/
def abortMsg (msg err sout serr : String) : Err :=
  msg ++ ": " ++ err ++ "\nOUT: " ++ sout ++ "\nERR: " ++ serr

/-- The actions abort performs when the process handle exists: interrupt,
wait, then close both pipes (the reads between them are captured by the
message). -/
def abortEvents : List Event :=
  [Event.signalInterrupt, Event.procWait,
   Event.pipeClose "stderr", Event.pipeClose "stdout"]

/-- Content of the generated my.cnf, as formatted by the source. -/
def configContent (dataDir sockDir dir : String) : String :=
  "[mysqld]\ndatadir = " ++ dataDir ++ "\nsocket = " ++ sockDir ++
  "/mysql.sock\ngeneral_log_file = " ++ dir ++
  "/out.log\ngeneral_log = 1\nskip-networking\n"

/-- Result of Start: the instance (none on failure), the returned error, a
flag recording that execution ended in a runtime panic instead of a return,
and the trace. -/
structure StartResult where
  inst : Option MySQL
  error : Option Err
  panicked : Bool
  events : List Event
  deriving Repr

/-- Start of the source, step by step in source order. Each early return
carries the trace accumulated so far. When cmd.Start fails, the source calls
abort with cmd.Process still nil, and Process.Signal on a nil process
dereferences the nil pointer: modelled as a panic outcome. -/
def Start (env : Env) : StartResult :=
  match env.currentUser with
  | .error e => ⟨none, some e, false, []⟩
  | .ok username =>
    let isRoot := username == "root"
    match (if isRoot then resolveMysqlIds env else .ok ((0 : Int), (0 : Int))) with
    | .error e => ⟨none, some e, false, []⟩
    | .ok _ids =>
      match env.tempDir with
      | .error e => ⟨none, some e, false, []⟩
      | .ok dir =>
        let dataDir := joinPath dir "data"
        let sockDir := joinPath dir "sock"
        let sockFile := joinPath sockDir "mysql.sock"
        let e1 := [Event.tempDirCreated dir]
        match env.mkdirData with
        | some e => ⟨none, some e, false, e1⟩
        | none =>
          let e2 := e1 ++ [Event.mkdir dataDir]
          match env.mkdirSock with
          | some e => ⟨none, some e, false, e2⟩
          | none =>
            let e3 := e2 ++ [Event.mkdir sockDir]
            match (if isRoot then env.chmodDir else none) with
            | some e => ⟨none, some e, false, e3⟩
            | none =>
              let e4 := e3 ++ (if isRoot then [Event.chmod dir] else [])
              match (if isRoot then env.chownData else none) with
              | some e => ⟨none, some e, false, e4⟩
              | none =>
                let e5 := e4 ++ (if isRoot then [Event.chown dataDir] else [])
                match (if isRoot then env.chownSock else none) with
                | some e => ⟨none, some e, false, e5⟩
                | none =>
                  let e6 := e5 ++ (if isRoot then [Event.chown sockDir] else [])
                  let configFile := joinPath dir "my.cnf"
                  let e7 := e6 ++ [Event.wroteConfig configFile
                    (configContent dataDir sockDir dir)]
                  match findBinPath env.lookPath with
                  | .error e => ⟨none, some e, false, e7⟩
                  | .ok binPath =>
                    let verCmd := joinPath binPath "mysql"
                    let verArgs := ["--version"]
                    let verPrep := prepareCommand isRoot verCmd verArgs
                    let e8 := e7 ++ [Event.exec CmdTag.version verCmd verArgs verPrep]
                    match env.versionErr with
                    | some e =>
                      ⟨none,
                       some ("Failed to get version: " ++ e ++ " -> "
                         ++ env.versionOut),
                       false, e8⟩
                    | none =>
                      let isMariaDB := strContains env.versionOut "MariaDB"
                      let bootCmd := if isMariaDB
                        then joinPath binPath "mysql_install_db"
                        else joinPath binPath "mysqld_safe"
                      let bootArgs := if isMariaDB
                        then ["--datadir=" ++ dataDir]
                        else ["--initialize-insecure", "--datadir=" ++ dataDir]
                      let bootPrep := prepareCommand isRoot bootCmd bootArgs
                      let e9 := e8 ++ [Event.exec CmdTag.bootstrap bootCmd bootArgs bootPrep]
                      match env.bootstrapErr with
                      | some e =>
                        ⟨none,
                         some ("Failed to initialize DB: " ++ e ++ " -> "
                           ++ env.bootstrapOut),
                         false, e9⟩
                      | none =>
                        let srvCmd := joinPath binPath "mysqld_safe"
                        let srvArgs := ["--defaults-file=" ++ configFile]
                        let srvPrep := prepareCommand isRoot srvCmd srvArgs
                        match env.stderrPipeErr with
                        | some e => ⟨none, some e, false, e9⟩
                        | none =>
                          let e10 := e9 ++ [Event.pipeOpen "stderr"]
                          match env.stdoutPipeErr with
                          | some e =>
                            ⟨none, some e, false, e10 ++ [Event.pipeClose "stderr"]⟩
                          | none =>
                            let e11 := e10 ++ [Event.pipeOpen "stdout"]
                            match env.startErr with
                            | some _ =>
                              ⟨none, none, true, e11 ++ [Event.panicNilProcess]⟩
                            | none =>
                              let e12 := e11 ++ [Event.procStart srvCmd srvArgs srvPrep]
                              let r := retry env.ping startRetryAttempts startRetryIntervalMs
                              match r.result with
                              | none =>
                                ⟨some ⟨dir, true, isRoot, binPath, sockFile⟩,
                                 none, false, e12 ++ r.events⟩
                              | some e =>
                                ⟨none,
                                 some (abortMsg "Failed to connect to test DB" e
                                   env.capturedOut env.capturedErr),
                                 false,
                                 e12 ++ r.events ++ abortEvents⟩

/-- Oracle for the external calls of Stop, one field per call site. -/
structure StopEnv where
  /-- error of the mysqladmin shutdown CombinedOutput call. -/
  shutdownErr : Option Err
  /-- combined output of the shutdown call. -/
  shutdownOut : String
  /-- cmd.Wait result. -/
  waitErr : Option Err
  /-- os.RemoveAll result; the source never reads it. -/
  removeErr : Option Err
  deriving Repr

/-- Result of Stop. -/
structure StopResult where
  error : Option Err
  events : List Event
  deriving DecidableEq, Repr

/-- The mysqladmin shutdown command Stop builds for an instance. -/
def shutdownRaw (inst : MySQL) : String × List String :=
  (joinPath inst.binPath "mysqladmin",
   ["-u", "root", "-S", inst.sockFile, "shutdown"])

/-- Stop of the source: nil receivers return immediately; otherwise the
removal of the storage root is deferred (it runs last on every path and its
outcome is discarded), the shutdown command runs, then Wait, then the pipes
are closed. -/
def Stop (p : Option MySQL) (env : StopEnv) : StopResult :=
  match p with
  | none => ⟨none, []⟩
  | some inst =>
    let raw := shutdownRaw inst
    let prep := prepareCommand inst.isRoot raw.1 raw.2
    let e1 := [Event.exec CmdTag.shutdown raw.1 raw.2 prep]
    match env.shutdownErr with
    | some e =>
      ⟨some ("Failed to shutdown DB: " ++ e ++ " -> " ++ env.shutdownOut),
       e1 ++ [Event.removeAll inst.dir]⟩
    | none =>
      match env.waitErr with
      | some e => ⟨some e, e1 ++ [Event.procWait, Event.removeAll inst.dir]⟩
      | none =>
        ⟨none,
         e1 ++ [Event.procWait, Event.pipeClose "stderr",
           Event.pipeClose "stdout", Event.removeAll inst.dir]⟩

/-! Trace predicates used by the claim statements. -/

/-- Event is a removal of a directory tree. -/
def isRemoveAll : Event → Bool
  | .removeAll _ => true
  | _ => false

/-- Event is the creation of the temporary storage root. -/
def isTempDirCreated : Event → Bool
  | .tempDirCreated _ => true
  | _ => false

/-- Event is the launch of the long-running server process. -/
def isProcStart : Event → Bool
  | .procStart _ _ _ => true
  | _ => false

/-- The call-site tag of an exec event. -/
def execTag : Event → Option CmdTag
  | .exec t _ _ _ => some t
  | _ => none

/-- A prepared command is the su re-targeted form. -/
def isSuForm (prep : String × List String) : Bool :=
  prep.1 == "su" && prep.2.take 3 == ["-", "mysql", "-c"]

/-- Every command the trace runs (exec or process launch) is su re-targeted. -/
def runsOnlyViaSu (evs : List Event) : Bool :=
  evs.all fun ev =>
    match ev with
    | .exec _ _ _ prep => isSuForm prep
    | .procStart _ _ prep => isSuForm prep
    | _ => true

/-- Boolean success test for Except values. -/
def exOk {α : Type} : Except Err α → Bool
  | .ok _ => true
  | .error _ => false

/-- Start reached and ran the bootstrap command. -/
def reachedBootstrap (env : Env) : Bool :=
  (Start env).events.any fun ev => execTag ev == some CmdTag.bootstrap

/-- Start reached and ran the version probe. -/
def reachedVersion (env : Env) : Bool :=
  (Start env).events.any fun ev => execTag ev == some CmdTag.version

/-! Lemmas about the retry loop. -/

theorem retryFuel_calls_ge (fn : Nat → Option Err) (d : Nat) :
    ∀ fuel idx, idx + 1 ≤ (retryFuel fn d fuel idx).calls := by
  intro fuel
  induction fuel with
  | zero => intro idx; simp [retryFuel]
  | succ f ih =>
    intro idx
    cases h : fn idx with
    | none => simp [retryFuel, h]
    | some e =>
      have := ih (idx + 1)
      simp only [retryFuel, h]
      omega

theorem retryFuel_calls_le (fn : Nat → Option Err) (d : Nat) :
    ∀ fuel idx, (retryFuel fn d fuel idx).calls ≤ idx + 1 + fuel := by
  intro fuel
  induction fuel with
  | zero => intro idx; simp [retryFuel]
  | succ f ih =>
    intro idx
    cases h : fn idx with
    | none => simp [retryFuel, h]
    | some e =>
      have := ih (idx + 1)
      simp only [retryFuel, h]
      omega

theorem retryFuel_result_eq (fn : Nat → Option Err) (d : Nat) :
    ∀ fuel idx,
      (retryFuel fn d fuel idx).result = fn ((retryFuel fn d fuel idx).calls - 1) := by
  intro fuel
  induction fuel with
  | zero => intro idx; simp [retryFuel]
  | succ f ih =>
    intro idx
    cases h : fn idx with
    | none => simp [retryFuel, h]
    | some e => simpa only [retryFuel, h] using ih (idx + 1)

theorem retryFuel_mid_fail (fn : Nat → Option Err) (d : Nat) :
    ∀ fuel idx j, idx ≤ j → j + 1 < (retryFuel fn d fuel idx).calls →
      (fn j).isSome = true := by
  intro fuel
  induction fuel with
  | zero =>
    intro idx j hij hj
    simp [retryFuel] at hj
    omega
  | succ f ih =>
    intro idx j hij hj
    cases h : fn idx with
    | none =>
      simp [retryFuel, h] at hj
      omega
    | some e =>
      simp only [retryFuel, h] at hj
      rcases Nat.eq_or_lt_of_le hij with rfl | hlt
      · simp [h]
      · exact ih (idx + 1) j hlt hj

theorem retryFuel_some_exhaust (fn : Nat → Option Err) (d : Nat) :
    ∀ fuel idx, (retryFuel fn d fuel idx).result.isSome = true →
      (retryFuel fn d fuel idx).calls = idx + 1 + fuel := by
  intro fuel
  induction fuel with
  | zero => intro idx _; simp [retryFuel]
  | succ f ih =>
    intro idx hs
    cases h : fn idx with
    | none => simp [retryFuel, h] at hs
    | some e =>
      simp only [retryFuel, h] at hs ⊢
      have := ih (idx + 1) hs
      omega

theorem retryFuel_first_success (fn : Nat → Option Err) (d : Nat) :
    ∀ fuel idx k, idx ≤ k → k ≤ idx + fuel → fn k = none →
      (∀ j, idx ≤ j → j < k → (fn j).isSome = true) →
      (retryFuel fn d fuel idx).calls = k + 1 ∧
      (retryFuel fn d fuel idx).result = none := by
  intro fuel
  induction fuel with
  | zero =>
    intro idx k hik hk hnone _
    have : k = idx := by omega
    subst this
    simp [retryFuel, hnone]
  | succ f ih =>
    intro idx k hik hk hnone hfail
    rcases Nat.eq_or_lt_of_le hik with rfl | hlt
    · simp [retryFuel, hnone]
    · have hsome : (fn idx).isSome = true := hfail idx (Nat.le_refl idx) hlt
      cases h : fn idx with
      | none => rw [h] at hsome; simp at hsome
      | some e =>
        have := ih (idx + 1) k hlt (by omega) hnone
          (fun j hj hjk => hfail j (by omega) hjk)
        simpa only [retryFuel, h] using this

theorem retryFuel_events_eq (fn : Nat → Option Err) (d : Nat) :
    ∀ fuel idx,
      (retryFuel fn d fuel idx).events =
        List.replicate ((retryFuel fn d fuel idx).calls - (idx + 1))
          (Event.sleep d) := by
  intro fuel
  induction fuel with
  | zero => intro idx; simp [retryFuel]
  | succ f ih =>
    intro idx
    cases h : fn idx with
    | none => simp [retryFuel, h]
    | some e =>
      have hge := retryFuel_calls_ge fn d f (idx + 1)
      simp only [retryFuel, h]
      rw [ih (idx + 1)]
      have : (retryFuel fn d f (idx + 1)).calls - (idx + 1) =
          ((retryFuel fn d f (idx + 1)).calls - (idx + 1 + 1)) + 1 := by omega
      rw [this, List.replicate_succ]

theorem retryFuel_events_sleep (fn : Nat → Option Err) (d : Nat) :
    ∀ fuel idx ev, ev ∈ (retryFuel fn d fuel idx).events → ev = Event.sleep d := by
  intro fuel idx ev hmem
  rw [retryFuel_events_eq] at hmem
  exact (List.eq_of_mem_replicate hmem)

/-- C3: for every attempt closure fn, attempt count n of at least 1 and
interval d, retry calls fn at most n times with a fixed sleep of d between
consecutive attempts, returns success as soon as some attempt succeeds making
no further attempts, and when all n attempts fail returns the error of the
final attempt; Start instantiates it with 1000 attempts at 10 milliseconds. -/
theorem retry_contract (fn : Nat → Option Err) (n : Int) (d : Nat)
    (hn : 1 ≤ n) :
    (retry fn n d).calls ≤ n.toNat ∧
    1 ≤ (retry fn n d).calls ∧
    (retry fn n d).events =
      List.replicate ((retry fn n d).calls - 1) (Event.sleep d) ∧
    (retry fn n d).result = fn ((retry fn n d).calls - 1) ∧
    ((retry fn n d).result.isSome = true → (retry fn n d).calls = n.toNat) ∧
    (∀ j, j + 1 < (retry fn n d).calls → (fn j).isSome = true) ∧
    (∀ k, k < n.toNat → fn k = none → (∀ j, j < k → (fn j).isSome = true) →
      (retry fn n d).result = none ∧ (retry fn n d).calls = k + 1) ∧
    startRetryAttempts = 1000 ∧ startRetryIntervalMs = 10 := by
  have hfuel : (0 : Nat) + 1 + (n - 1).toNat = n.toNat := by omega
  refine ⟨?_, ?_, ?_, ?_, ?_, ?_, ?_, rfl, rfl⟩
  · have := retryFuel_calls_le fn d ((n - 1).toNat) 0
    simp only [retry]
    omega
  · have := retryFuel_calls_ge fn d ((n - 1).toNat) 0
    simp only [retry]
    omega
  · simpa only [retry] using retryFuel_events_eq fn d ((n - 1).toNat) 0
  · simpa only [retry] using retryFuel_result_eq fn d ((n - 1).toNat) 0
  · intro hs
    have := retryFuel_some_exhaust fn d ((n - 1).toNat) 0 (by simpa [retry] using hs)
    simp only [retry]
    omega
  · intro j hj
    exact retryFuel_mid_fail fn d ((n - 1).toNat) 0 j (Nat.zero_le j)
      (by simpa [retry] using hj)
  · intro k hk hnone hfail
    have := retryFuel_first_success fn d ((n - 1).toNat) 0 k (Nat.zero_le k)
      (by omega) hnone (fun j _ hjk => hfail j hjk)
    simp only [retry]
    exact ⟨this.2, this.1⟩

theorem retry_contract_witness :
    (retry (fun _ => some "connection refused") 3 10).calls ≤ (3 : Int).toNat ∧
    (retry (fun _ => some "connection refused") 3 10).result =
      (fun _ => some "connection refused")
        ((retry (fun _ => some "connection refused") 3 10).calls - 1) := by
  have h := retry_contract (fun _ => some "connection refused") 3 10 (by decide)
  exact ⟨h.1, h.2.2.2.1⟩

theorem retryFuel_all_fail (fn : Nat → Option Err) (d : Nat) :
    ∀ fuel idx, (∀ k, (fn k).isSome = true) →
      (retryFuel fn d fuel idx).result.isSome = true := by
  intro fuel
  induction fuel with
  | zero => intro idx h; simpa [retryFuel] using h idx
  | succ f ih =>
    intro idx h
    cases hx : fn idx with
    | none =>
      have := h idx
      rw [hx] at this
      simp at this
    | some e =>
      simpa only [retryFuel, hx] using ih (idx + 1) h

theorem retry64_eq_retry (fn : Nat → Option Err) (n : Int) (d : Nat)
    (h1 : -9223372036854775808 < n) (h2 : n ≤ 9223372036854775807) :
    retry64 fn n d = retry fn n d := by
  have h : (wrapDec64 n).toNat = (n - 1).toNat := by
    unfold wrapDec64 toInt64
    omega
  simp [retry64, retry, h]

/-- C10 counterexample: at attempts = math.MinInt64 the Go decrement wraps
the remaining budget to math.MaxInt64, so with an attempt closure that
always fails the loop performs 2 to the 63 calls, sleeping between them,
instead of returning the single attempt result immediately with no sleep. -/
theorem retry_min_int_wraps_and_retries :
    (retry64 (fun _ => some "conn refused") (-9223372036854775808) 10).calls =
      9223372036854775808 ∧
    (retry64 (fun _ => some "conn refused") (-9223372036854775808) 10).events ≠ [] := by
  have hf : (wrapDec64 (-9223372036854775808)).toNat = 9223372036854775807 := by
    unfold wrapDec64 toInt64
    omega
  have hsome : (retryFuel (fun _ => some "conn refused") 10
      9223372036854775807 0).result.isSome = true :=
    retryFuel_all_fail (fun _ => some "conn refused") 10 9223372036854775807 0
      (fun _ => rfl)
  have hcalls := retryFuel_some_exhaust (fun _ => some "conn refused") 10
    9223372036854775807 0 hsome
  have hev := retryFuel_events_eq (fun _ => some "conn refused") 10
    9223372036854775807 0
  constructor
  · simp only [retry64, hf, hcalls]
  · simp only [retry64, hf, hev, hcalls, ne_eq, List.replicate_eq_nil_iff]
    omega

/-- C10 amended: retry always invokes its attempt closure at least once; for
an attempt count of zero, or negative but above math.MinInt64, the single
attempt runs and its result is returned immediately with no sleep; at
math.MinInt64 itself the wrapping decrement turns the budget into
math.MaxInt64, so when the result is an error the loop has run the full
2 to the 63 attempts instead of returning at once. -/
theorem retry64_at_least_once (fn : Nat → Option Err) (d : Nat) :
    (∀ n : Int, 1 ≤ (retry64 fn n d).calls) ∧
    (∀ n : Int, -9223372036854775808 < n → n ≤ 0 →
      (retry64 fn n d).calls = 1 ∧ (retry64 fn n d).result = fn 0 ∧
      (retry64 fn n d).events = []) ∧
    ((retry64 fn (-9223372036854775808) d).result.isSome = true →
      (retry64 fn (-9223372036854775808) d).calls = 9223372036854775808) := by
  refine ⟨?_, ?_, ?_⟩
  · intro n
    have := retryFuel_calls_ge fn d ((wrapDec64 n).toNat) 0
    simp only [retry64]
    omega
  · intro n h1 h2
    have hf : (wrapDec64 n).toNat = 0 := by
      unfold wrapDec64 toInt64
      omega
    simp [retry64, hf, retryFuel]
  · intro hs
    have hf : (wrapDec64 (-9223372036854775808)).toNat = 9223372036854775807 := by
      unfold wrapDec64 toInt64
      omega
    have := retryFuel_some_exhaust fn d ((wrapDec64 (-9223372036854775808)).toNat) 0
      (by simpa [retry64] using hs)
    simp only [retry64]
    omega

theorem retry64_at_least_once_witness :
    (retry64 (fun _ => some "server is down") (-2) 5).calls = 1 ∧
    (retry64 (fun _ => some "server is down") (-2) 5).result = some "server is down" ∧
    (retry64 (fun _ => some "server is down") (-2) 5).events = [] := by
  have h := (retry64_at_least_once (fun _ => some "server is down") 5).2.1 (-2)
    (by decide) (by decide)
  simpa using h

/-- C4: a call of Stop on a non-nil instance attempts removal of the storage
root as the final step on every control path, including when the shutdown
command or the wait fails; the removal outcome is never reported and never
changes the error Stop returns, which is absent exactly when shutdown and
wait both succeed. -/
theorem stop_always_attempts_removal (inst : MySQL) (s : Option Err)
    (o : String) (w r r2 : Option Err) :
    (Stop (some inst) ⟨s, o, w, r⟩).events.getLast? =
      some (Event.removeAll inst.dir) ∧
    (Stop (some inst) ⟨s, o, w, r⟩).error = (Stop (some inst) ⟨s, o, w, r2⟩).error ∧
    ((Stop (some inst) ⟨s, o, w, r⟩).error = none ↔ s = none ∧ w = none) := by
  cases s <;> cases w <;> simp [Stop]

/-- C2 counterexample: the source keeps no stopped flag on the MySQL struct,
so a second call of Stop on a non-nil instance whose server is already gone
takes the same path as the first call: it executes the mysqladmin shutdown
command again (which now fails) and returns an error, contradicting the
claimed no-error no-reexecution behaviour. -/
def stoppedInst : MySQL :=
  ⟨"/tmp/mysqltest810067242", true, false, "/usr/bin",
   "/tmp/mysqltest810067242/sock/mysql.sock"⟩

/-- Stop oracle for a second call: the shutdown command fails because the
server was already shut down by the first call. -/
def stopEnvSecond : StopEnv :=
  ⟨some "exit status 1",
   "mysqladmin: connect to server failed", none, none⟩

/-- C2 counterexample theorem: on an already stopped instance, Stop executes
the administrative shutdown command again and returns a non-nil error. -/
theorem stop_second_call_runs_shutdown_again :
    (Stop (some stoppedInst) stopEnvSecond).error.isSome = true ∧
    ((Stop (some stoppedInst) stopEnvSecond).events.any
      fun ev => execTag ev == some CmdTag.shutdown) = true := by
  decide

/-- C2 amended: Stop on a nil instance returns no error, performs no action
and runs no shutdown step; but the source keeps no stopped state, so Stop on
every non-nil instance executes the administrative shutdown command exactly
once per call, hence a second call re-executes it. -/
theorem stop_nil_noop_nonnil_reruns_shutdown (env : StopEnv) (inst : MySQL) :
    Stop none env = ⟨none, []⟩ ∧
    ((Stop (some inst) env).events.countP
      fun ev => execTag ev == some CmdTag.shutdown) = 1 := by
  refine ⟨rfl, ?_⟩
  cases hs : env.shutdownErr <;> cases hw : env.waitErr <;>
    simp [Stop, hs, hw, execTag, List.countP_cons, List.countP_append]

/-- Oracle in which everything up to the data directory creation succeeds and
os.MkdirAll of the data subdirectory fails: Start has already created the
temporary storage root. -/
def envMkdirFail : Env where
  currentUser := .ok "builder"
  lookupMysql := .ok ("27", "27")
  parseUid := .ok 27
  parseGid := .ok 27
  tempDir := .ok "/tmp/mysqltest810067242"
  mkdirData := some "permission denied"
  mkdirSock := none
  chmodDir := none
  chownData := none
  chownSock := none
  writeConfig := none
  lookPath := .ok "/usr/bin/mysqld_safe"
  versionErr := none
  versionOut := "mysql  Ver 8.0.32"
  bootstrapErr := none
  bootstrapOut := ""
  stderrPipeErr := none
  stdoutPipeErr := none
  startErr := none
  ping := fun _ => none
  capturedOut := ""
  capturedErr := ""

/-- C1 counterexample: a failing Start in which the temporary storage root
was created but no removal is ever performed or scheduled: Start contains no
deferred cleanup at all, so the root (and whatever it already holds) is
leaked to the caller. -/
theorem start_failure_leaks_tempdir :
    (Start envMkdirFail).error.isSome = true ∧
    ((Start envMkdirFail).events.any isTempDirCreated) = true ∧
    ((Start envMkdirFail).events.all fun ev => !isRemoveAll ev) = true := by
  decide

theorem retry_events_no_remove (fn : Nat → Option Err) (n : Int) (d : Nat) :
    ((retry fn n d).events.all fun ev => !isRemoveAll ev) = true := by
  rw [List.all_eq_true]
  intro ev h
  rw [retryFuel_events_sleep fn d _ _ ev (by simpa [retry] using h)]
  rfl

/-- C1 amended: when Start fails it returns no instance, and when the server
process had already been launched it is interrupted and waited on; but no
removal of the temporary storage root (nor of anything under it) is ever
performed or scheduled by Start, on any path. -/
theorem start_error_no_instance_never_removes (env : Env) :
    ((Start env).error.isSome = true → (Start env).inst = none) ∧
    ((Start env).events.all fun ev => !isRemoveAll ev) = true ∧
    ((Start env).error.isSome = true →
      ((Start env).events.any isProcStart) = true →
      ((Start env).events.any fun ev => ev == Event.signalInterrupt) = true ∧
      ((Start env).events.any fun ev => ev == Event.procWait) = true) := by
  have hretry := retry_events_no_remove env.ping startRetryAttempts startRetryIntervalMs
  unfold Start
  cases hcu : env.currentUser with
  | error e => simp
  | ok u =>
    by_cases hroot : u = "root"
    · subst hroot
      simp only [beq_self_eq_true, if_true]
      repeat' split
      all_goals
        simp_all [abortEvents, isRemoveAll, isProcStart, List.all_append,
          List.any_append]
    · simp only [beq_iff_eq, hroot, if_false]
      repeat' split
      all_goals
        simp_all [abortEvents, isRemoveAll, isProcStart, List.all_append,
          List.any_append]

/-- Oracle in which everything succeeds except the connection attempts: the
server process is launched, the full retry budget is exhausted and Start
fails after aborting the process. -/
def envConnectFail : Env where
  currentUser := .ok "builder"
  lookupMysql := .ok ("27", "27")
  parseUid := .ok 27
  parseGid := .ok 27
  tempDir := .ok "/tmp/mysqltest810067242"
  mkdirData := none
  mkdirSock := none
  chmodDir := none
  chownData := none
  chownSock := none
  writeConfig := none
  lookPath := .ok "/usr/bin/mysqld_safe"
  versionErr := none
  versionOut := "mysql  Ver 8.0.32"
  bootstrapErr := none
  bootstrapOut := ""
  stderrPipeErr := none
  stdoutPipeErr := none
  startErr := none
  ping := fun _ => some "connection refused"
  capturedOut := "server output"
  capturedErr := "server errors"

theorem start_error_no_instance_never_removes_witness :
    (Start envConnectFail).inst = none ∧
    ((Start envConnectFail).events.any fun ev => ev == Event.signalInterrupt) = true := by
  have h := start_error_no_instance_never_removes envConnectFail
  exact ⟨h.1 (by decide), (h.2.2 (by decide) (by decide)).1⟩

/-- C5: whenever the bootstrap command runs and exits with an error, Start
returns the fixed error message embedding the captured combined output of the
bootstrap, returns no instance, runs the bootstrap exactly once (no retry),
and never launches the server process. -/
theorem bootstrap_failure_is_fatal (env : Env) (e : Err)
    (hr : reachedBootstrap env = true) (hb : env.bootstrapErr = some e) :
    (Start env).error =
      some ("Failed to initialize DB: " ++ e ++ " -> " ++ env.bootstrapOut) ∧
    containsStr ("Failed to initialize DB: " ++ e ++ " -> " ++ env.bootstrapOut)
      env.bootstrapOut ∧
    (Start env).inst = none ∧
    ((Start env).events.countP fun ev => execTag ev == some CmdTag.bootstrap) = 1 ∧
    ((Start env).events.all fun ev => !isProcStart ev) = true := by
  have hc : containsStr
      ("Failed to initialize DB: " ++ e ++ " -> " ++ env.bootstrapOut)
      env.bootstrapOut :=
    ⟨"Failed to initialize DB: " ++ e ++ " -> ", "", by simp⟩
  unfold reachedBootstrap at hr
  unfold Start at hr ⊢
  cases hcu : env.currentUser with
  | error e2 =>
    rw [hcu] at hr
    simp [execTag] at hr
  | ok u =>
    rw [hcu] at hr
    by_cases hroot : u = "root"
    · subst hroot
      simp only [beq_self_eq_true, if_true] at hr ⊢
      repeat' split
      all_goals
        simp_all [execTag, isProcStart, List.countP_append, List.countP_cons,
          List.all_append, abortEvents]
    · simp only [beq_iff_eq, hroot, if_false] at hr ⊢
      repeat' split
      all_goals
        simp_all [execTag, isProcStart, List.countP_append, List.countP_cons,
          List.all_append, abortEvents]

/-- Oracle in which the bootstrap command exits non-zero with diagnostic
output, everything before it succeeding. -/
def envBootFail : Env where
  currentUser := .ok "builder"
  lookupMysql := .ok ("27", "27")
  parseUid := .ok 27
  parseGid := .ok 27
  tempDir := .ok "/tmp/mysqltest810067242"
  mkdirData := none
  mkdirSock := none
  chmodDir := none
  chownData := none
  chownSock := none
  writeConfig := none
  lookPath := .ok "/usr/bin/mysqld_safe"
  versionErr := none
  versionOut := "mysql  Ver 8.0.32"
  bootstrapErr := some "exit status 1"
  bootstrapOut := "initialize specified but the data directory has files in it"
  stderrPipeErr := none
  stdoutPipeErr := none
  startErr := none
  ping := fun _ => none
  capturedOut := ""
  capturedErr := ""

theorem bootstrap_failure_is_fatal_witness :
    (Start envBootFail).inst = none ∧
    ((Start envBootFail).events.all fun ev => !isProcStart ev) = true := by
  have h := bootstrap_failure_is_fatal envBootFail "exit status 1"
    (by decide) rfl
  exact ⟨h.2.2.1, h.2.2.2.2⟩

theorem retry_events_eq (fn : Nat → Option Err) (n : Int) (d : Nat) :
    (retry fn n d).events =
      List.replicate ((retry fn n d).calls - 1) (Event.sleep d) := by
  simpa [retry] using retryFuel_events_eq fn d ((n - 1).toNat) 0

theorem isSuForm_prepareCommand (c : String) (args : List String) :
    isSuForm (prepareCommand true c args) = true := by
  simp [prepareCommand, isSuForm]

/-- C7: when the caller identity is root, no command is ever executed
directly: every command run by Start (the exec call sites and the server
launch) is re-targeted through su - mysql -c, and when the mysql service
account does not resolve, Start fails before any command is run (with an
empty trace). -/
theorem root_never_executes_directly (env : Env)
    (hu : env.currentUser = Except.ok "root") :
    (∀ t c a prep, Event.exec t c a prep ∈ (Start env).events →
      isSuForm prep = true) ∧
    (∀ c a prep, Event.procStart c a prep ∈ (Start env).events →
      isSuForm prep = true) ∧
    (exOk (resolveMysqlIds env) = false →
      (Start env).error.isSome = true ∧ (Start env).events = []) := by
  have hre := retry_events_eq env.ping startRetryAttempts startRetryIntervalMs
  unfold Start
  cases hcu : env.currentUser with
  | error e => rw [hcu] at hu; exact absurd hu (by simp)
  | ok u =>
    rw [hcu] at hu
    have hu2 : u = "root" := by
      cases hu
      rfl
    subst hu2
    simp only [beq_self_eq_true, if_true]
    cases hres : resolveMysqlIds env with
    | error e => simp [exOk, hres]
    | ok ids =>
      repeat' split
      all_goals
        simp_all [exOk, abortEvents, isSuForm_prepareCommand,
          List.mem_append, List.mem_replicate, or_imp]

/-- Oracle for a fully successful run as root: the mysql account resolves
and the first connection attempt succeeds. -/
def envRoot : Env where
  currentUser := .ok "root"
  lookupMysql := .ok ("27", "27")
  parseUid := .ok 27
  parseGid := .ok 27
  tempDir := .ok "/tmp/mysqltest810067242"
  mkdirData := none
  mkdirSock := none
  chmodDir := none
  chownData := none
  chownSock := none
  writeConfig := none
  lookPath := .ok "/usr/bin/mysqld_safe"
  versionErr := none
  versionOut := "mysql  Ver 8.0.32"
  bootstrapErr := none
  bootstrapOut := ""
  stderrPipeErr := none
  stdoutPipeErr := none
  startErr := none
  ping := fun _ => none
  capturedOut := ""
  capturedErr := ""

/-- Oracle for a run as root on a host without the mysql service account:
user.Lookup fails. -/
def envRootNoMysql : Env :=
  { envRoot with lookupMysql := .error "user: unknown user mysql" }

theorem root_never_executes_directly_witness :
    (Start envRootNoMysql).error.isSome = true ∧
    (Start envRootNoMysql).events = [] := by
  have h := root_never_executes_directly envRootNoMysql rfl
  exact h.2.2 (by decide)

/-- C8: Start probes the client tool with mysql --version; when the captured
output contains the MariaDB marker the bootstrap runs mysql_install_db at the
data directory, otherwise it runs mysqld_safe --initialize-insecure at the
data directory. -/
theorem variant_dispatch_by_version_marker (env : Env) (bin dir : String)
    (hr : reachedVersion env = true) (hok : env.versionErr = none)
    (hbin : findBinPath env.lookPath = Except.ok bin)
    (hdir : env.tempDir = Except.ok dir) :
    (∃ prep, Event.exec CmdTag.version (joinPath bin "mysql") ["--version"] prep
      ∈ (Start env).events) ∧
    (strContains env.versionOut "MariaDB" = true →
      ∃ prep, Event.exec CmdTag.bootstrap (joinPath bin "mysql_install_db")
        ["--datadir=" ++ joinPath dir "data"] prep ∈ (Start env).events) ∧
    (strContains env.versionOut "MariaDB" = false →
      ∃ prep, Event.exec CmdTag.bootstrap (joinPath bin "mysqld_safe")
        ["--initialize-insecure", "--datadir=" ++ joinPath dir "data"] prep
        ∈ (Start env).events) := by
  have hre := retry_events_eq env.ping startRetryAttempts startRetryIntervalMs
  unfold reachedVersion at hr
  unfold Start at hr ⊢
  cases hcu : env.currentUser with
  | error e2 =>
    rw [hcu] at hr
    simp [execTag] at hr
  | ok u =>
    rw [hcu] at hr
    by_cases hroot : u = "root"
    · subst hroot
      simp only [beq_self_eq_true, if_true] at hr ⊢
      repeat' split
      all_goals refine ⟨?_, fun hmar => ?_, fun hmar => ?_⟩
      all_goals
        simp_all [execTag, abortEvents, List.mem_append, List.mem_replicate]
    · simp only [beq_iff_eq, hroot, if_false] at hr ⊢
      repeat' split
      all_goals refine ⟨?_, fun hmar => ?_, fun hmar => ?_⟩
      all_goals
        simp_all [execTag, abortEvents, List.mem_append, List.mem_replicate]

theorem variant_dispatch_by_version_marker_witness :
    ∃ prep, Event.exec CmdTag.bootstrap
      (joinPath (dirPart "/usr/bin/mysqld_safe") "mysqld_safe")
      ["--initialize-insecure",
       "--datadir=" ++ joinPath "/tmp/mysqltest810067242" "data"] prep
      ∈ (Start envBootFail).events := by
  have h := variant_dispatch_by_version_marker envBootFail
    (dirPart "/usr/bin/mysqld_safe") "/tmp/mysqltest810067242"
    (by decide) rfl rfl rfl
  exact h.2.2 (by decide)

/-- C9: the command wrapper is a direct invocation with unchanged arguments
when running as self; under privilege dropping it is the su invocation whose
single composed string joins the executable and the arguments, where the
empty argument is rendered as the explicit two-quote token and every other
argument is left as is. -/
theorem prepareCommand_direct_or_su (c : String) (args : List String) :
    prepareCommand false c args = (c, args) ∧
    prepareCommand true c args =
      ("su", ["-", "mysql", "-c",
        String.intercalate " " (c :: args.map quoteEmpty)]) ∧
    quoteEmpty "" = emptyQuoted ∧
    (∀ a : String, a ≠ "" → quoteEmpty a = a) := by
  refine ⟨rfl, rfl, rfl, ?_⟩
  intro a ha
  simp [quoteEmpty, ha]

theorem prepareCommand_direct_or_su_witness :
    prepareCommand false "/usr/bin/mysql" ["--version"] =
      ("/usr/bin/mysql", ["--version"]) ∧
    quoteEmpty "--version" = "--version" := by
  have h := prepareCommand_direct_or_su "/usr/bin/mysql" ["--version"]
  exact ⟨h.1, h.2.2.2 "--version" (by decide)⟩

/-- Oracle in which every step succeeds until cmd.Start, which fails: the
source then calls abort with a nil process handle. -/
def envSpawnFail : Env where
  currentUser := .ok "builder"
  lookupMysql := .ok ("27", "27")
  parseUid := .ok 27
  parseGid := .ok 27
  tempDir := .ok "/tmp/mysqltest810067242"
  mkdirData := none
  mkdirSock := none
  chmodDir := none
  chownData := none
  chownSock := none
  writeConfig := none
  lookPath := .ok "/usr/bin/mysqld_safe"
  versionErr := none
  versionOut := "mysql  Ver 8.0.32"
  bootstrapErr := none
  bootstrapOut := ""
  stderrPipeErr := none
  stdoutPipeErr := none
  startErr := some "fork/exec /usr/bin/mysqld_safe: resource temporarily unavailable"
  ping := fun _ => none
  capturedOut := ""
  capturedErr := ""

/-- C6 evaluation at the failing input: when cmd.Start fails, exec.Cmd leaves
cmd.Process nil, and abort immediately calls Process.Signal on that nil
handle, which dereferences the nil pointer: the call panics instead of
returning the claimed diagnostic error, and no interrupt or wait is
performed. -/
theorem spawn_failure_panics_in_abort :
    (Start envSpawnFail).panicked = true ∧
    (Start envSpawnFail).error = none ∧
    (Start envSpawnFail).inst = none ∧
    ((Start envSpawnFail).events.any fun ev => ev == Event.signalInterrupt) = false := by
  decide
